import Mathlib

/-
Shallow embedding of `src/agent_utils.py` (the RAG agent builder).

External collaborators (document loaders, embedding resolver, the builder
LLM, and the function-calling capability table of `llama_index`) are
modelled as opaque total functions gathered in an `Env` record.  Objects
constructed by the external framework (service contexts, indices, query
engines, chat engines, agents) are represented symbolically by structures
that record exactly the arguments the source passes to the corresponding
constructor calls.  Python `ValueError` exceptions become the
`Except`-error `BuildError.valueError` carrying the literal message;
pydantic validation failures become `BuildError.validationError`.
Environment-variable writes (`os.environ[...] = st.secrets...`) are pure
side effects on process state that no claim observes, and are omitted.
-/

namespace AgentUtils

/-- A JSON-style value appearing in a parameter dictionary: the fields of
`RAGParams` are booleans, integers and strings, so these three shapes
suffice for the dictionaries exchanged by `get_rag_params` and
`set_rag_params`. -/
inductive PVal where
  | b (v : Bool)
  | i (v : Int)
  | s (v : String)
  deriving DecidableEq

/-- An opaque `llama_index` `Document`, identified by its content. -/
structure Document where
  text : String
  deriving DecidableEq

/-- An opaque embedding capability, as returned by the external
`resolve_embed_model`. -/
structure EmbedModel where
  ident : String
  deriving DecidableEq

/-- A resolved language-model object.  The constructors mirror the classes
the source can produce in `_resolve_llm`: `OpenAI(model=...)`,
the external `resolve_llm` for a `local:` descriptor (kept opaque, carrying
the full descriptor), `Anthropic(model=...)` and `Replicate(model=...)`. -/
inductive LLMObj where
  | openAI (model : String)
  | localLLM (descriptor : String)
  | anthropicLLM (model : String)
  | replicateLLM (model : String)
  deriving DecidableEq

/-- Errors raised by the embedded code: `valueError` is Python
`ValueError(msg)`; `validationError` is a pydantic validation failure on a
field (type mismatch while constructing `RAGParams`). -/
inductive BuildError where
  | valueError (msg : String)
  | validationError (field : String)
  deriving DecidableEq

/-- `ServiceContext.from_defaults(chunk_size=..., llm=..., embed_model=...)`,
recorded symbolically. -/
structure ServiceContext where
  chunk_size : Int
  llm : LLMObj
  embed_model : EmbedModel
  deriving DecidableEq

/-- `VectorStoreIndex.from_documents(docs, service_context=...)`, recorded
symbolically. -/
structure VectorStoreIndex where
  docs : List Document
  service_context : ServiceContext
  deriving DecidableEq

/-- `SummaryIndex.from_documents(docs, service_context=...)`, recorded
symbolically. -/
structure SummaryIndex where
  docs : List Document
  service_context : ServiceContext
  deriving DecidableEq

/-- A query engine built from an index: `vector_index.as_query_engine
(similarity_top_k=...)` or `summary_index.as_query_engine()`. -/
inductive QueryEngine where
  | vectorQE (index : VectorStoreIndex) (similarity_top_k : Int)
  | summaryQE (index : SummaryIndex)
  deriving DecidableEq

/-- `ToolMetadata(name=..., description=...)`. -/
structure ToolMetadata where
  name : String
  description : String
  deriving DecidableEq

/-- A tool handle: either a `QueryEngineTool(query_engine=..., metadata=...)`
built by `create_agent`, or an opaque externally supplied tool (e.g. the web
tools held in the cache's `tools` list). -/
inductive Tool where
  | queryEngineTool (query_engine : QueryEngine) (metadata : ToolMetadata)
  | functionTool (ident : String)
  deriving DecidableEq

/-- `vector_index.as_retriever(similarity_top_k=...)`, recorded
symbolically. -/
structure Retriever where
  index : VectorStoreIndex
  similarity_top_k : Int
  deriving DecidableEq

/-- An assembled agent: either `OpenAIAgent.from_tools(tools=..., llm=...,
system_prompt=...)` or `CondensePlusContextChatEngine.from_defaults
(retriever)`, recording exactly the arguments the source passes. -/
inductive Agent where
  | openAIAgent (tools : List Tool) (llm : LLMObj) (system_prompt : String)
  | condensePlusContextChatEngine (retriever : Retriever)
  deriving DecidableEq

/-- The `RAGParams` pydantic model with its declared defaults. -/
structure RAGParams where
  include_summarization : Bool := false
  top_k : Int := 2
  chunk_size : Int := 1024
  embed_model : String := "default"
  llm : String := "gpt-4-1106-preview"
  deriving DecidableEq

/-- The `ParamCache` pydantic model with its declared defaults. -/
structure ParamCache where
  system_prompt : Option String := none
  file_paths : List String := []
  docs : List Document := []
  tools : List Tool := []
  rag_params : RAGParams := {}
  agent : Option Agent := none
  deriving DecidableEq

/-- The external collaborators the source calls into, kept opaque:
`SimpleDirectoryReader(...).load_data()`, `SimpleWebPageReader().load_data`,
`resolve_embed_model`, `is_function_calling_model`, and the builder LLM's
chat call used by `create_system_prompt`. -/
structure Env where
  loadFromFiles : List String → List Document
  loadFromUrls : List String → List Document
  resolve_embed_model : String → EmbedModel
  is_function_calling_model : String → Bool
  builder_chat : String → String

/-- The `extra_kwargs` dictionary of `load_agent`: the source only ever
reads the keys `"vector_index"` and `"rag_params"` from it. -/
structure ExtraKwargs where
  vector_index : Option VectorStoreIndex := none
  rag_params : Option RAGParams := none
  deriving DecidableEq

/-- Python `s.split(":")`: split on every occurrence of the separator,
keeping empty segments, with `"".split(":") == [""]`.  Computed structurally
over the character list (`List.splitOn` has exactly these semantics for a
single-character separator) so that it evaluates inside the kernel. -/
def pySplit (s : String) : List String :=
  (s.toList.splitOn ':').map String.mk

/-- `_resolve_llm` from the source: split the descriptor on `":"`; a bare
name goes to the default provider `OpenAI(model=llm)`; known prefixes pick
their provider; anything else raises `ValueError(f"LLM {llm} not
recognized.")`.  Python's `tokens[0]`/`tokens[1]` are total here because
the split never returns an empty list and the indexed branches run
only when a separator was present. -/
def _resolve_llm (llm : String) : Except BuildError LLMObj :=
  let tokens := pySplit llm
  if tokens.length = 1 then
    .ok (.openAI llm)
  else if tokens.headD "" = "local" then
    .ok (.localLLM llm)
  else if tokens.headD "" = "openai" then
    .ok (.openAI (tokens.getD 1 ""))
  else if tokens.headD "" = "anthropic" then
    .ok (.anthropicLLM (tokens.getD 1 ""))
  else if tokens.headD "" = "replicate" then
    .ok (.replicateLLM (tokens.getD 1 ""))
  else
    .error (.valueError ("LLM " ++ llm ++ " not recognized."))

/-- The guard `isinstance(llm, OpenAI) and is_function_calling_model
(llm.model)` from `load_agent`. -/
def toolCalling (env : Env) (llm : LLMObj) : Bool :=
  match llm with
  | .openAI model => env.is_function_calling_model model
  | _ => false

/-- `load_agent` from the source.  The tool-calling branch builds an
`OpenAIAgent` over the full tool list and the system prompt; otherwise the
source requires `"vector_index"` in `extra_kwargs` (else
`ValueError`), reads `"rag_params"` (a missing key would be a Python
`KeyError`, modelled as an error as well) and builds a
`CondensePlusContextChatEngine` from the vector retriever alone.  The
`verbose` keyword argument is presentation-only and omitted. -/
def load_agent (env : Env) (tools : List Tool) (llm : LLMObj)
    (system_prompt : String) (extra_kwargs : Option ExtraKwargs) :
    Except BuildError Agent :=
  if toolCalling env llm then
    .ok (.openAIAgent tools llm system_prompt)
  else
    let ek := extra_kwargs.getD {}
    match ek.vector_index with
    | none =>
      .error (.valueError "Must pass in vector index for CondensePlusContextChatEngine.")
    | some vector_index =>
      match ek.rag_params with
      | none => .error (.valueError "rag_params")
      | some rag_params =>
        .ok (.condensePlusContextChatEngine
          { index := vector_index, similarity_top_k := rag_params.top_k })

/-- Python-dict lookup on an association list with distinct keys (the shape
every dictionary in the source has). -/
def lookupD : List (String × PVal) → String → Option PVal
  | [], _ => none
  | kv :: tl, k => if kv.1 = k then some kv.2 else lookupD tl k

/-- Python-dict assignment `d[k] = v`: replace the value of an existing key
in place, otherwise append the new pair at the end (insertion order). -/
def setKey : List (String × PVal) → String → PVal → List (String × PVal)
  | [], k, v => [(k, v)]
  | kv :: tl, k, v => if kv.1 = k then (k, v) :: tl else kv :: setKey tl k v

/-- Python `d.update(overrides)`: assign every pair of `overrides` into `d`
in order. -/
def dictUpdate (d : List (String × PVal)) (overrides : List (String × PVal)) :
    List (String × PVal) :=
  overrides.foldl (fun acc kv => setKey acc kv.1 kv.2) d

/-- Pydantic `rag_params.dict()`: the five declared fields in declaration
order. -/
def RAGParams.dict (p : RAGParams) : List (String × PVal) :=
  [("include_summarization", .b p.include_summarization),
   ("top_k", .i p.top_k),
   ("chunk_size", .i p.chunk_size),
   ("embed_model", .s p.embed_model),
   ("llm", .s p.llm)]

/-- Read a boolean field out of a constructor-argument dictionary: absent
keys take the declared default, a value of the wrong shape is a pydantic
validation failure. -/
def fieldB (d : List (String × PVal)) (k : String) (dflt : Bool) :
    Except BuildError Bool :=
  match lookupD d k with
  | none => .ok dflt
  | some (.b v) => .ok v
  | some (.i _) => .error (.validationError k)
  | some (.s _) => .error (.validationError k)

/-- Read an integer field out of a constructor-argument dictionary. -/
def fieldI (d : List (String × PVal)) (k : String) (dflt : Int) :
    Except BuildError Int :=
  match lookupD d k with
  | none => .ok dflt
  | some (.i v) => .ok v
  | some (.b _) => .error (.validationError k)
  | some (.s _) => .error (.validationError k)

/-- Read a string field out of a constructor-argument dictionary. -/
def fieldS (d : List (String × PVal)) (k : String) (dflt : String) :
    Except BuildError String :=
  match lookupD d k with
  | none => .ok dflt
  | some (.s v) => .ok v
  | some (.b _) => .error (.validationError k)
  | some (.i _) => .error (.validationError k)

/-- The pydantic constructor call `RAGParams(**d)`.  `RAGParams` declares no
`Config`, so pydantic's default extra-field handling applies: keys that are
not declared fields are silently ignored; each declared field takes the
supplied value (of the matching shape) or its default.  Pydantic's value
coercion rules are not modelled; values are taken at their exact shape. -/
def RAGParams.fromDict (d : List (String × PVal)) : Except BuildError RAGParams :=
  match fieldB d "include_summarization" false with
  | .error e => .error e
  | .ok include_summarization =>
    match fieldI d "top_k" 2 with
    | .error e => .error e
    | .ok top_k =>
      match fieldI d "chunk_size" 1024 with
      | .error e => .error e
      | .ok chunk_size =>
        match fieldS d "embed_model" "default" with
        | .error e => .error e
        | .ok embed_model =>
          match fieldS d "llm" "gpt-4-1106-preview" with
          | .error e => .error e
          | .ok llm =>
            .ok { include_summarization, top_k, chunk_size, embed_model, llm }

/-- `RAGAgentBuilder.create_system_prompt`: chat with the builder LLM on the
fixed template applied to `task`, store the reply, return the confirmation
string. -/
def create_system_prompt (env : Env) (c : ParamCache) (task : String) :
    String × ParamCache :=
  let response := env.builder_chat task
  ("System prompt created: " ++ response,
    { c with system_prompt := some response })

/-- `RAGAgentBuilder.load_data`: reject both-or-neither of
`file_names`/`urls` with the source's `ValueError` messages; otherwise load
through the selected external reader and overwrite `docs`/`file_paths`. -/
def load_data (env : Env) (c : ParamCache)
    (file_names : Option (List String)) (urls : Option (List String)) :
    Except BuildError (String × ParamCache) :=
  match file_names, urls with
  | none, none =>
    .error (.valueError "Must specify either file_names or urls.")
  | some _, some _ =>
    .error (.valueError "Must specify only one of file_names or urls.")
  | some fns, none =>
    let docs := env.loadFromFiles fns
    .ok ("Data loaded successfully.", { c with docs := docs, file_paths := fns })
  | none, some us =>
    let docs := env.loadFromUrls us
    .ok ("Data loaded successfully.", { c with docs := docs, file_paths := us })

/-- `RAGAgentBuilder.get_rag_params`: return `self._cache.rag_params.dict()`. -/
def get_rag_params (c : ParamCache) : List (String × PVal) :=
  c.rag_params.dict

/-- `RAGAgentBuilder.set_rag_params`: copy the current parameter dictionary,
`update` it with the overrides, rebuild `RAGParams` from the merged
dictionary and store it. -/
def set_rag_params (c : ParamCache) (rag_params : List (String × PVal)) :
    Except BuildError (String × ParamCache) :=
  let new_dict := dictUpdate c.rag_params.dict rag_params
  match RAGParams.fromDict new_dict with
  | .error e => .error e
  | .ok rag_params_obj =>
    .ok ("RAG parameters set successfully.", { c with rag_params := rag_params_obj })

/-- `RAGAgentBuilder.create_agent`: resolve the embedding model and the LLM,
build the service context, vector index, vector query-engine tool, the
optional summary tool, append the cache's extra tools, then — only at that
point — check the system prompt (returning the soft-failure string if it is
unset), and finally assemble the agent through `load_agent` and store it. -/
def create_agent (env : Env) (c : ParamCache) :
    Except BuildError (String × ParamCache) :=
  let rag_params := c.rag_params
  let docs := c.docs
  let embed_model := env.resolve_embed_model rag_params.embed_model
  match _resolve_llm rag_params.llm with
  | .error e => .error e
  | .ok llm =>
    let service_context : ServiceContext :=
      { chunk_size := rag_params.chunk_size, llm := llm, embed_model := embed_model }
    let vector_index : VectorStoreIndex :=
      { docs := docs, service_context := service_context }
    let vector_query_engine := QueryEngine.vectorQE vector_index rag_params.top_k
    let vector_tool := Tool.queryEngineTool vector_query_engine
      { name := "vector_tool",
        description := "Use this tool to answer any user question over any data." }
    let all_tools := [vector_tool]
    let all_tools :=
      if rag_params.include_summarization then
        let summary_index : SummaryIndex :=
          { docs := docs, service_context := service_context }
        let summary_query_engine := QueryEngine.summaryQE summary_index
        let summary_tool := Tool.queryEngineTool summary_query_engine
          { name := "summary_tool",
            description := "Use this tool for any user questions that ask for a summarization of content" }
        all_tools ++ [summary_tool]
      else all_tools
    let all_tools := all_tools ++ c.tools
    match c.system_prompt with
    | none => .ok ("System prompt not set yet. Please set system prompt first.", c)
    | some system_prompt =>
      match load_agent env all_tools llm system_prompt
          (some { vector_index := some vector_index, rag_params := some rag_params }) with
      | .error e => .error e
      | .ok agent => .ok ("Agent created successfully.", { c with agent := some agent })

/-- The provider prefixes the `if`-chain of `_resolve_llm` recognizes. -/
def knownProviders : List String := ["local", "openai", "anthropic", "replicate"]

/-- The declared field names of `RAGParams`, i.e. the recognized keys of the
parameter schema. -/
def ragParamKeys : List String :=
  ["include_summarization", "top_k", "chunk_size", "embed_model", "llm"]

/-- A key/value pair addressing a declared `RAGParams` field with a value of
that field's shape. -/
def wellTypedEntry : String × PVal → Bool
  | (k, PVal.b _) => k == "include_summarization"
  | (k, PVal.i _) => k == "top_k" || k == "chunk_size"
  | (k, PVal.s _) => k == "embed_model" || k == "llm"

/-- The cache a fresh `RAGAgentBuilder()` session starts from. -/
def initialCache : ParamCache := {}

/-- A concrete environment for evaluating the operations on closed inputs:
every external capability answers with a fixed value, and every model name
is reported as function-calling-capable. -/
def envAny : Env where
  loadFromFiles := fun fns => fns.map (fun f => { text := f })
  loadFromUrls := fun us => us.map (fun u => { text := u })
  resolve_embed_model := fun s => { ident := s }
  is_function_calling_model := fun _ => true
  builder_chat := fun task => "Prompt for: " ++ task

/-- A concrete environment whose capability table reports no model as
function-calling-capable. -/
def envNoFC : Env where
  loadFromFiles := fun fns => fns.map (fun f => { text := f })
  loadFromUrls := fun us => us.map (fun u => { text := u })
  resolve_embed_model := fun s => { ident := s }
  is_function_calling_model := fun _ => false
  builder_chat := fun task => task

/-- An opaque extra tool, standing for a web-search capability held in the
cache's `tools` list. -/
def toolW : Tool := .functionTool "web_search"

/-- A concrete vector index for exercising `load_agent` directly. -/
def viW : VectorStoreIndex :=
  { docs := [{ text := "doc" }],
    service_context :=
      { chunk_size := 512, llm := .openAI "gpt-4", embed_model := { ident := "default" } } }

/-- The cache produced by loading `["a.txt"]` through `envAny` from a fresh
cache. -/
def cacheAfterLoad1 : ParamCache :=
  { docs := [{ text := "a.txt" }], file_paths := ["a.txt"] }

theorem lookupD_setKey_self (d : List (String × PVal)) (k : String) (v : PVal) :
    lookupD (setKey d k v) k = some v := by
  induction d with
  | nil => simp [setKey, lookupD]
  | cons kv tl ih =>
    by_cases h : kv.1 = k
    · simp [setKey, h, lookupD]
    · simp [setKey, h, lookupD, ih]

theorem lookupD_setKey_ne (d : List (String × PVal)) (k k' : String) (v : PVal)
    (h : k' ≠ k) : lookupD (setKey d k v) k' = lookupD d k' := by
  induction d with
  | nil => simp [setKey, lookupD, Ne.symm h]
  | cons kv tl ih =>
    by_cases hk : kv.1 = k
    · simp [setKey, hk, lookupD, h, Ne.symm h]
    · by_cases hk' : kv.1 = k'
      · simp [setKey, hk, lookupD, hk', h]
      · simp [setKey, hk, lookupD, hk', h, ih]

theorem lookupD_dictUpdate_not_mem (m : List (String × PVal))
    (d : List (String × PVal)) (k : String) (h : ∀ kv ∈ m, kv.1 ≠ k) :
    lookupD (dictUpdate d m) k = lookupD d k := by
  induction m generalizing d with
  | nil => rfl
  | cons kv tl ih =>
    have hne : kv.1 ≠ k := h kv (List.mem_cons_self _ _)
    have step : dictUpdate d (kv :: tl) = dictUpdate (setKey d kv.1 kv.2) tl := rfl
    rw [step, ih (setKey d kv.1 kv.2) (fun kv' hkv' => h kv' (List.mem_cons_of_mem _ hkv')),
      lookupD_setKey_ne _ _ _ _ (Ne.symm hne)]

theorem lookupD_dictUpdate_mem (m : List (String × PVal))
    (d : List (String × PVal)) (k : String) (v : PVal) (h : (k, v) ∈ m)
    (hnd : (m.map Prod.fst).Nodup) :
    lookupD (dictUpdate d m) k = some v := by
  induction m generalizing d with
  | nil => cases h
  | cons kv tl ih =>
    obtain ⟨k1, v1⟩ := kv
    have step : dictUpdate d ((k1, v1) :: tl) = dictUpdate (setKey d k1 v1) tl := rfl
    rw [List.map_cons, List.nodup_cons] at hnd
    rcases List.mem_cons.mp h with heq | htl
    · cases heq
      have hne : ∀ kv' ∈ tl, kv'.1 ≠ k := by
        intro kv' hkv' hk
        have hmem := List.mem_map_of_mem Prod.fst hkv'
        rw [hk] at hmem
        exact hnd.1 hmem
      rw [step, lookupD_dictUpdate_not_mem tl _ k hne, lookupD_setKey_self]
    · rw [step]
      exact ih (setKey d k1 v1) htl hnd.2

theorem fromDict_of_lookups (d : List (String × PVal)) (b : Bool)
    (i1 i2 : Int) (s1 s2 : String)
    (h1 : lookupD d "include_summarization" = some (.b b))
    (h2 : lookupD d "top_k" = some (.i i1))
    (h3 : lookupD d "chunk_size" = some (.i i2))
    (h4 : lookupD d "embed_model" = some (.s s1))
    (h5 : lookupD d "llm" = some (.s s2)) :
    RAGParams.fromDict d = .ok (⟨b, i1, i2, s1, s2⟩ : RAGParams) := by
  rw [RAGParams.fromDict, fieldB, fieldI, fieldI, fieldS, fieldS, h1, h2, h3, h4, h5]

/-- Claim C8: a language-model descriptor of the form
`"<provider>:<model>"` whose provider segment is none of the known
providers (`local`, `openai`, `anthropic`, `replicate`) makes `_resolve_llm`
fail with the unrecognized-identifier `ValueError`, while a bare name
without a separator resolves under the default provider `OpenAI`. -/
theorem resolve_llm_provider_dispatch (llm : String) :
    ((pySplit llm).length ≠ 1 →
      (pySplit llm).headD "" ∉ knownProviders →
      _resolve_llm llm = .error (.valueError ("LLM " ++ llm ++ " not recognized.")))
  ∧ ((pySplit llm).length = 1 →
      _resolve_llm llm = .ok (.openAI llm)) := by
  constructor
  · intro h1 h2
    simp only [knownProviders, List.mem_cons, List.not_mem_nil, or_false, not_or] at h2
    obtain ⟨hl, ho, ha, hr⟩ := h2
    rw [List.headD_eq_head?] at hl ho ha hr
    simp [_resolve_llm, h1, hl, ho, ha, hr]
  · intro h
    simp [_resolve_llm, h]

/-- Witness for C8 at the descriptor `"mistral:mixtral"` (unknown provider)
and the bare name `"gpt-4"`. -/
theorem resolve_llm_provider_dispatch_witness :
    ((pySplit "mistral:mixtral").length ≠ 1
      ∧ (pySplit "mistral:mixtral").headD "" ∉ knownProviders
      ∧ _resolve_llm "mistral:mixtral" =
          .error (.valueError "LLM mistral:mixtral not recognized."))
  ∧ ((pySplit "gpt-4").length = 1
      ∧ _resolve_llm "gpt-4" = .ok (.openAI "gpt-4")) :=
  ⟨⟨by decide, by decide,
    (resolve_llm_provider_dispatch "mistral:mixtral").1 (by decide) (by decide)⟩,
   ⟨by decide, (resolve_llm_provider_dispatch "gpt-4").2 (by decide)⟩⟩

/-- Claim C7: when `load_agent` takes the retrieval-context path (the model
is not tool-calling-capable) and `extra_kwargs` carries no vector index, it
fails with the precondition-violation `ValueError`. -/
theorem load_agent_requires_vector_index (env : Env) (tools : List Tool)
    (llm : LLMObj) (system_prompt : String) (extra_kwargs : Option ExtraKwargs)
    (h1 : toolCalling env llm = false)
    (h2 : (extra_kwargs.getD {}).vector_index = none) :
    load_agent env tools llm system_prompt extra_kwargs =
      .error (.valueError "Must pass in vector index for CondensePlusContextChatEngine.") := by
  simp [load_agent, h1, h2]

/-- Witness for C7: a non-OpenAI model with `extra_kwargs = None`. -/
theorem load_agent_requires_vector_index_witness :
    (toolCalling envAny (.anthropicLLM "claude-2") = false
      ∧ ((none : Option ExtraKwargs).getD {}).vector_index = none)
  ∧ load_agent envAny [] (.anthropicLLM "claude-2") "sys" none =
      .error (.valueError "Must pass in vector index for CondensePlusContextChatEngine.") :=
  ⟨⟨rfl, rfl⟩,
   load_agent_requires_vector_index envAny [] (.anthropicLLM "claude-2") "sys" none rfl rfl⟩

/-- Claim C3: `load_agent` decides the assembly strategy from the model
family alone.  A tool-calling-capable model yields an `OpenAIAgent` carrying
the full tool list and the system prompt, whatever `extra_kwargs` holds; a
non-tool-calling model (with the vector index `create_agent` always
supplies) yields a retrieval-only `CondensePlusContextChatEngine` without
raising, and the construction is independent of the tool list and the
system prompt. -/
theorem load_agent_model_family_dispatch (env : Env) (tools : List Tool)
    (llm : LLMObj) (system_prompt : String) (ek : Option ExtraKwargs)
    (vi : VectorStoreIndex) (rp : RAGParams) :
    (toolCalling env llm = true →
      load_agent env tools llm system_prompt ek =
        .ok (.openAIAgent tools llm system_prompt))
  ∧ (toolCalling env llm = false →
      load_agent env tools llm system_prompt
          (some { vector_index := some vi, rag_params := some rp }) =
        .ok (.condensePlusContextChatEngine { index := vi, similarity_top_k := rp.top_k })
      ∧ ∀ tools2 sp2,
        load_agent env tools2 llm sp2
            (some { vector_index := some vi, rag_params := some rp }) =
          load_agent env tools llm system_prompt
            (some { vector_index := some vi, rag_params := some rp })) := by
  refine ⟨fun h => ?_, fun h => ⟨?_, fun tools2 sp2 => ?_⟩⟩ <;> simp [load_agent, h]

/-- Witness for C3: with `envAny`, `OpenAI("gpt-4")` takes the tool-calling
path with a non-empty tool list and the prompt, and `Anthropic("claude-2")`
with the same non-empty tool list succeeds on the retrieval-only path. -/
theorem load_agent_model_family_dispatch_witness :
    (toolCalling envAny (.openAI "gpt-4") = true
      ∧ load_agent envAny [toolW] (.openAI "gpt-4") "sys" none =
          .ok (.openAIAgent [toolW] (.openAI "gpt-4") "sys"))
  ∧ (toolCalling envAny (.anthropicLLM "claude-2") = false
      ∧ load_agent envAny [toolW] (.anthropicLLM "claude-2") "sys"
            (some { vector_index := some viW, rag_params := some {} }) =
          .ok (.condensePlusContextChatEngine { index := viW, similarity_top_k := 2 })) :=
  ⟨⟨rfl, (load_agent_model_family_dispatch envAny [toolW] (.openAI "gpt-4") "sys" none viW {}).1 rfl⟩,
   ⟨rfl, ((load_agent_model_family_dispatch envAny [toolW] (.anthropicLLM "claude-2") "sys" none viW {}).2 rfl).1⟩⟩

/-- Claim C5: `load_data` fails with the invalid-argument `ValueError`
exactly when both or neither of `file_names`/`urls` are supplied; with
exactly one of them it returns the fixed success string (and the loaded
documents and chosen path list). -/
theorem load_data_source_exclusivity (env : Env) (c : ParamCache)
    (file_names : Option (List String)) (urls : Option (List String)) :
    (file_names = none → urls = none →
      load_data env c file_names urls =
        .error (.valueError "Must specify either file_names or urls."))
  ∧ (∀ f u, file_names = some f → urls = some u →
      load_data env c file_names urls =
        .error (.valueError "Must specify only one of file_names or urls."))
  ∧ (∀ f, file_names = some f → urls = none →
      load_data env c file_names urls =
        .ok ("Data loaded successfully.",
          { c with docs := env.loadFromFiles f, file_paths := f }))
  ∧ (∀ u, file_names = none → urls = some u →
      load_data env c file_names urls =
        .ok ("Data loaded successfully.",
          { c with docs := env.loadFromUrls u, file_paths := u })) := by
  refine ⟨fun h1 h2 => ?_, fun f u h1 h2 => ?_, fun f h1 h2 => ?_, fun u h1 h2 => ?_⟩ <;>
    subst h1 <;> subst h2 <;> rfl

/-- Witness for C5: both arguments, neither argument, and files only. -/
theorem load_data_source_exclusivity_witness :
    load_data envAny initialCache (some ["a.txt"]) (some ["http://x"]) =
      .error (.valueError "Must specify only one of file_names or urls.")
  ∧ load_data envAny initialCache none none =
      .error (.valueError "Must specify either file_names or urls.")
  ∧ load_data envAny initialCache (some ["a.txt"]) none =
      .ok ("Data loaded successfully.",
        { initialCache with docs := [{ text := "a.txt" }], file_paths := ["a.txt"] }) :=
  ⟨(load_data_source_exclusivity envAny initialCache (some ["a.txt"]) (some ["http://x"])).2.1
      ["a.txt"] ["http://x"] rfl rfl,
   (load_data_source_exclusivity envAny initialCache none none).1 rfl rfl,
   (load_data_source_exclusivity envAny initialCache (some ["a.txt"]) none).2.2.1
      ["a.txt"] rfl rfl⟩

/-- Claim C6: after a successful `load_data`, a second `load_data` behaves
exactly as it would have from the pre-first-load cache — the first load's
documents and paths are discarded, and a successful second load leaves
precisely the second call's documents and path list in the cache. -/
theorem load_data_second_call_replaces (env : Env) (c : ParamCache)
    (fns1 urls1 : Option (List String)) (s1 : String) (c1 : ParamCache)
    (h : load_data env c fns1 urls1 = .ok (s1, c1))
    (fns2 urls2 : Option (List String)) :
    load_data env c1 fns2 urls2 = load_data env c fns2 urls2
  ∧ (∀ f s2 c2, fns2 = some f → urls2 = none →
      load_data env c1 fns2 urls2 = .ok (s2, c2) →
      c2.docs = env.loadFromFiles f ∧ c2.file_paths = f)
  ∧ (∀ u s2 c2, fns2 = none → urls2 = some u →
      load_data env c1 fns2 urls2 = .ok (s2, c2) →
      c2.docs = env.loadFromUrls u ∧ c2.file_paths = u) := by
  rcases fns1 with _ | f1 <;> rcases urls1 with _ | u1 <;>
    simp only [load_data, Except.ok.injEq, Prod.mk.injEq] at h
  · exact absurd h (by simp)
  · obtain ⟨hs, hc⟩ := h
    subst hc
    refine ⟨?_, fun f s2 c2 hf hu h2 => ?_, fun u s2 c2 hf hu h2 => ?_⟩
    · rcases fns2 with _ | f2 <;> rcases urls2 with _ | u2 <;> rfl
    · subst hf; subst hu
      simp only [load_data, Except.ok.injEq, Prod.mk.injEq] at h2
      obtain ⟨hs2, hc2⟩ := h2
      subst hc2
      exact ⟨rfl, rfl⟩
    · subst hf; subst hu
      simp only [load_data, Except.ok.injEq, Prod.mk.injEq] at h2
      obtain ⟨hs2, hc2⟩ := h2
      subst hc2
      exact ⟨rfl, rfl⟩
  · obtain ⟨hs, hc⟩ := h
    subst hc
    refine ⟨?_, fun f s2 c2 hf hu h2 => ?_, fun u s2 c2 hf hu h2 => ?_⟩
    · rcases fns2 with _ | f2 <;> rcases urls2 with _ | u2 <;> rfl
    · subst hf; subst hu
      simp only [load_data, Except.ok.injEq, Prod.mk.injEq] at h2
      obtain ⟨hs2, hc2⟩ := h2
      subst hc2
      exact ⟨rfl, rfl⟩
    · subst hf; subst hu
      simp only [load_data, Except.ok.injEq, Prod.mk.injEq] at h2
      obtain ⟨hs2, hc2⟩ := h2
      subst hc2
      exact ⟨rfl, rfl⟩
  · exact absurd h (by simp)

/-- Witness for C6: load a file, then load a URL; the second call behaves as
if the first had never happened. -/
theorem load_data_second_call_replaces_witness :
    load_data envAny initialCache (some ["a.txt"]) none =
      .ok ("Data loaded successfully.", cacheAfterLoad1)
  ∧ load_data envAny cacheAfterLoad1 none (some ["http://x"]) =
      load_data envAny initialCache none (some ["http://x"]) :=
  ⟨rfl,
   (load_data_second_call_replaces envAny initialCache (some ["a.txt"]) none
      "Data loaded successfully." cacheAfterLoad1 rfl none (some ["http://x"])).1⟩

/-- A cache with no system prompt whose llm descriptor carries an unknown
provider segment. -/
def cacheNoPromptUnknownLLM : ParamCache := { rag_params := { llm := "unknown:gpt" } }

/-- Claim C10: `create_agent` resolves the language model before the
system-prompt guard is ever consulted, so on a cache with `systemPrompt`
unset but an unrecognized llm provider it raises the
unrecognized-identifier error instead of returning the soft-failure
string. -/
theorem create_agent_resolution_precedes_prompt_guard :
    cacheNoPromptUnknownLLM.system_prompt = none
  ∧ create_agent envAny cacheNoPromptUnknownLLM =
      .error (.valueError "LLM unknown:gpt not recognized.") :=
  ⟨rfl, rfl⟩

/-- A cache with no system prompt and a different unknown llm provider. -/
def cacheNoPromptBadLLM : ParamCache := { rag_params := { llm := "bogus:model" } }

/-- Counterexample to claim C2 as stated: a cache state with `systemPrompt`
unset on which `create_agent` does not return the soft-failure string but
raises, because the llm descriptor fails to resolve before the prompt guard
runs. -/
theorem create_agent_unset_prompt_not_always_soft :
    cacheNoPromptBadLLM.system_prompt = none
  ∧ create_agent envAny cacheNoPromptBadLLM =
      .error (.valueError "LLM bogus:model not recognized.") :=
  ⟨rfl, rfl⟩

/-- Claim C2 amended: on every cache with `systemPrompt` unset whose llm
descriptor resolves, `create_agent` returns the soft-failure string — a
non-exception return — and leaves the whole cache (in particular its
`agent` field) unchanged. -/
theorem create_agent_soft_failure_when_llm_resolves (env : Env) (c : ParamCache)
    (l : LLMObj) (hr : _resolve_llm c.rag_params.llm = .ok l)
    (hsp : c.system_prompt = none) :
    create_agent env c =
      .ok ("System prompt not set yet. Please set system prompt first.", c) := by
  simp only [create_agent, hr, hsp]

/-- Witness for C2 (amended) on the fresh cache, whose default llm
descriptor is a bare name and resolves to the default provider. -/
theorem create_agent_soft_failure_when_llm_resolves_witness :
    (_resolve_llm initialCache.rag_params.llm = .ok (.openAI "gpt-4-1106-preview")
      ∧ initialCache.system_prompt = none)
  ∧ create_agent envAny initialCache =
      .ok ("System prompt not set yet. Please set system prompt first.", initialCache) :=
  ⟨⟨rfl, rfl⟩,
   create_agent_soft_failure_when_llm_resolves envAny initialCache
     (.openAI "gpt-4-1106-preview") rfl rfl⟩

/-- Claim C9: whenever `create_agent` returns (success or soft failure), the
only cache field it can have changed is `agent`: the system prompt, file
paths, documents, extra tools and parameters all survive unchanged — the
tool list it assembles is a local value never written back to the cache. -/
theorem create_agent_mutates_only_agent (env : Env) (c : ParamCache)
    (s : String) (c' : ParamCache)
    (h : create_agent env c = .ok (s, c')) :
    c'.system_prompt = c.system_prompt ∧ c'.file_paths = c.file_paths
  ∧ c'.docs = c.docs ∧ c'.tools = c.tools ∧ c'.rag_params = c.rag_params := by
  simp only [create_agent] at h
  split at h
  · exact absurd h (by simp)
  · split at h
    · simp only [Except.ok.injEq, Prod.mk.injEq] at h
      obtain ⟨hs, hc⟩ := h
      subst hc
      exact ⟨rfl, rfl, rfl, rfl, rfl⟩
    · split at h
      · exact absurd h (by simp)
      · simp only [Except.ok.injEq, Prod.mk.injEq] at h
        obtain ⟨hs, hc⟩ := h
        subst hc
        exact ⟨rfl, rfl, rfl, rfl, rfl⟩

/-- A cache ready for successful agent creation: the system prompt is set
and every other field keeps its default. -/
def cacheReady : ParamCache := { system_prompt := some "You are a helpful agent." }

/-- The cache `create_agent envAny cacheReady` produces: identical to
`cacheReady` except that `agent` now holds the assembled tool-calling
agent. -/
def cacheReadyAfter : ParamCache :=
  { cacheReady with
    agent := some (.openAIAgent
      [Tool.queryEngineTool
        (QueryEngine.vectorQE
          { docs := [],
            service_context :=
              { chunk_size := 1024, llm := .openAI "gpt-4-1106-preview",
                embed_model := { ident := "default" } } } 2)
        { name := "vector_tool",
          description := "Use this tool to answer any user question over any data." }]
      (.openAI "gpt-4-1106-preview") "You are a helpful agent.") }

/-- Witness for C9 on a successful `create_agent` run. -/
theorem create_agent_mutates_only_agent_witness :
    create_agent envAny cacheReady = .ok ("Agent created successfully.", cacheReadyAfter)
  ∧ (cacheReadyAfter.system_prompt = cacheReady.system_prompt
      ∧ cacheReadyAfter.file_paths = cacheReady.file_paths
      ∧ cacheReadyAfter.docs = cacheReady.docs
      ∧ cacheReadyAfter.tools = cacheReady.tools
      ∧ cacheReadyAfter.rag_params = cacheReady.rag_params) :=
  ⟨rfl,
   create_agent_mutates_only_agent envAny cacheReady "Agent created successfully."
     cacheReadyAfter rfl⟩

theorem lookupD_update_b (m : List (String × PVal)) (d : List (String × PVal))
    (k : String) (b0 : Bool)
    (hwt : ∀ kv ∈ m, wellTypedEntry kv = true) (hnd : (m.map Prod.fst).Nodup)
    (hno_i : ∀ x : Int, wellTypedEntry (k, .i x) = false)
    (hno_s : ∀ x : String, wellTypedEntry (k, .s x) = false)
    (hbase : lookupD d k = some (.b b0)) :
    ∃ b : Bool, lookupD (dictUpdate d m) k = some (.b b)
      ∧ ((∀ v, (k, v) ∉ m) → b = b0) := by
  by_cases hx : ∃ v, (k, v) ∈ m
  · obtain ⟨v, hv⟩ := hx
    have hl := lookupD_dictUpdate_mem m d k v hv hnd
    have hw := hwt _ hv
    cases v with
    | b bb => exact ⟨bb, hl, fun hnone => absurd hv (hnone _)⟩
    | i x => rw [hno_i x] at hw; exact Bool.noConfusion hw
    | s x => rw [hno_s x] at hw; exact Bool.noConfusion hw
  · have hnotm : ∀ kv ∈ m, kv.1 ≠ k := by
      intro kv hkv heq
      obtain ⟨k1, v1⟩ := kv
      exact hx ⟨v1, heq ▸ hkv⟩
    exact ⟨b0, by rw [lookupD_dictUpdate_not_mem m d k hnotm, hbase], fun _ => rfl⟩

theorem lookupD_update_i (m : List (String × PVal)) (d : List (String × PVal))
    (k : String) (i0 : Int)
    (hwt : ∀ kv ∈ m, wellTypedEntry kv = true) (hnd : (m.map Prod.fst).Nodup)
    (hno_b : ∀ x : Bool, wellTypedEntry (k, .b x) = false)
    (hno_s : ∀ x : String, wellTypedEntry (k, .s x) = false)
    (hbase : lookupD d k = some (.i i0)) :
    ∃ i : Int, lookupD (dictUpdate d m) k = some (.i i)
      ∧ ((∀ v, (k, v) ∉ m) → i = i0) := by
  by_cases hx : ∃ v, (k, v) ∈ m
  · obtain ⟨v, hv⟩ := hx
    have hl := lookupD_dictUpdate_mem m d k v hv hnd
    have hw := hwt _ hv
    cases v with
    | i ii => exact ⟨ii, hl, fun hnone => absurd hv (hnone _)⟩
    | b x => rw [hno_b x] at hw; exact Bool.noConfusion hw
    | s x => rw [hno_s x] at hw; exact Bool.noConfusion hw
  · have hnotm : ∀ kv ∈ m, kv.1 ≠ k := by
      intro kv hkv heq
      obtain ⟨k1, v1⟩ := kv
      exact hx ⟨v1, heq ▸ hkv⟩
    exact ⟨i0, by rw [lookupD_dictUpdate_not_mem m d k hnotm, hbase], fun _ => rfl⟩

theorem lookupD_update_s (m : List (String × PVal)) (d : List (String × PVal))
    (k : String) (s0 : String)
    (hwt : ∀ kv ∈ m, wellTypedEntry kv = true) (hnd : (m.map Prod.fst).Nodup)
    (hno_b : ∀ x : Bool, wellTypedEntry (k, .b x) = false)
    (hno_i : ∀ x : Int, wellTypedEntry (k, .i x) = false)
    (hbase : lookupD d k = some (.s s0)) :
    ∃ s : String, lookupD (dictUpdate d m) k = some (.s s)
      ∧ ((∀ v, (k, v) ∉ m) → s = s0) := by
  by_cases hx : ∃ v, (k, v) ∈ m
  · obtain ⟨v, hv⟩ := hx
    have hl := lookupD_dictUpdate_mem m d k v hv hnd
    have hw := hwt _ hv
    cases v with
    | s ss => exact ⟨ss, hl, fun hnone => absurd hv (hnone _)⟩
    | b x => rw [hno_b x] at hw; exact Bool.noConfusion hw
    | i x => rw [hno_i x] at hw; exact Bool.noConfusion hw
  · have hnotm : ∀ kv ∈ m, kv.1 ≠ k := by
      intro kv hkv heq
      obtain ⟨k1, v1⟩ := kv
      exact hx ⟨v1, heq ▸ hkv⟩
    exact ⟨s0, by rw [lookupD_dictUpdate_not_mem m d k hnotm, hbase], fun _ => rfl⟩

/-- Counterexample to claim C1 as stated: `set_rag_params` with the unknown
key `"unknownKey"` does not fail — `RAGParams(**new_dict)` silently ignores
undeclared keys (pydantic's default extra-field handling), so the call
returns the success string and the cache is unchanged. -/
theorem set_rag_params_unknown_key_no_failure :
    set_rag_params initialCache [("unknownKey", PVal.i 1)] =
      .ok ("RAG parameters set successfully.", initialCache) := rfl

/-- Claim C1 amended: for every cache and every override mapping all of
whose keys are unrecognized, `set_rag_params` silently ignores the unknown
keys: it returns the success string and the cache's parameters are
unchanged (no InvalidArgument condition is raised). -/
theorem set_rag_params_unknown_keys_ignored (c : ParamCache)
    (m : List (String × PVal)) (h : ∀ kv ∈ m, kv.1 ∉ ragParamKeys) :
    set_rag_params c m = .ok ("RAG parameters set successfully.", c) := by
  have hne : ∀ k, k ∈ ragParamKeys → ∀ kv ∈ m, kv.1 ≠ k := by
    intro k hk kv hkv heq
    rw [← heq] at hk
    exact h kv hkv hk
  have h1 : lookupD (dictUpdate c.rag_params.dict m) "include_summarization"
      = some (.b c.rag_params.include_summarization) := by
    rw [lookupD_dictUpdate_not_mem m _ _ (hne _ (by decide))]; rfl
  have h2 : lookupD (dictUpdate c.rag_params.dict m) "top_k"
      = some (.i c.rag_params.top_k) := by
    rw [lookupD_dictUpdate_not_mem m _ _ (hne _ (by decide))]; rfl
  have h3 : lookupD (dictUpdate c.rag_params.dict m) "chunk_size"
      = some (.i c.rag_params.chunk_size) := by
    rw [lookupD_dictUpdate_not_mem m _ _ (hne _ (by decide))]; rfl
  have h4 : lookupD (dictUpdate c.rag_params.dict m) "embed_model"
      = some (.s c.rag_params.embed_model) := by
    rw [lookupD_dictUpdate_not_mem m _ _ (hne _ (by decide))]; rfl
  have h5 : lookupD (dictUpdate c.rag_params.dict m) "llm"
      = some (.s c.rag_params.llm) := by
    rw [lookupD_dictUpdate_not_mem m _ _ (hne _ (by decide))]; rfl
  simp only [set_rag_params]
  rw [fromDict_of_lookups _ _ _ _ _ _ h1 h2 h3 h4 h5]

/-- A cache whose parameters differ from the defaults, to make the C1
witness observe preservation of a non-default value. -/
def cacheTopK7 : ParamCache := { rag_params := { top_k := 7 } }

/-- Witness for C1 (amended) at a single unrecognized key on a non-default
cache. -/
theorem set_rag_params_unknown_keys_ignored_witness :
    (∀ kv ∈ [("someKey", PVal.s "x")], kv.1 ∉ ragParamKeys)
  ∧ set_rag_params cacheTopK7 [("someKey", PVal.s "x")] =
      .ok ("RAG parameters set successfully.", cacheTopK7) :=
  ⟨by decide, set_rag_params_unknown_keys_ignored cacheTopK7 _ (by decide)⟩

/-- Claim C4: for an override mapping containing only recognized keys (with
values of the fields' shapes and no repeated key, as keyword arguments
give), `set_rag_params` succeeds with the success string, and the mapping
`get_rag_params` then returns has exactly the overridden keys changed and
every other key unchanged — unspecified fields are never reset to
defaults. -/
theorem set_then_get_overrides_exactly (c : ParamCache)
    (m : List (String × PVal))
    (hwt : ∀ kv ∈ m, wellTypedEntry kv = true)
    (hnd : (m.map Prod.fst).Nodup) :
    ∃ c', set_rag_params c m = .ok ("RAG parameters set successfully.", c')
      ∧ (∀ k v, (k, v) ∈ m → lookupD (get_rag_params c') k = some v)
      ∧ (∀ k, (∀ v, (k, v) ∉ m) →
          lookupD (get_rag_params c') k = lookupD (get_rag_params c) k) := by
  obtain ⟨b, hb1, hb2⟩ :=
    lookupD_update_b m c.rag_params.dict "include_summarization"
      c.rag_params.include_summarization hwt hnd (fun x => rfl) (fun x => rfl) rfl
  obtain ⟨i1, hi1a, hi1b⟩ :=
    lookupD_update_i m c.rag_params.dict "top_k" c.rag_params.top_k
      hwt hnd (fun x => rfl) (fun x => rfl) rfl
  obtain ⟨i2, hi2a, hi2b⟩ :=
    lookupD_update_i m c.rag_params.dict "chunk_size" c.rag_params.chunk_size
      hwt hnd (fun x => rfl) (fun x => rfl) rfl
  obtain ⟨s1, hs1a, hs1b⟩ :=
    lookupD_update_s m c.rag_params.dict "embed_model" c.rag_params.embed_model
      hwt hnd (fun x => rfl) (fun x => rfl) rfl
  obtain ⟨s2, hs2a, hs2b⟩ :=
    lookupD_update_s m c.rag_params.dict "llm" c.rag_params.llm
      hwt hnd (fun x => rfl) (fun x => rfl) rfl
  refine ⟨{ c with rag_params := ⟨b, i1, i2, s1, s2⟩ }, ?_, ?_, ?_⟩
  · simp only [set_rag_params]
    rw [fromDict_of_lookups _ _ _ _ _ _ hb1 hi1a hi2a hs1a hs2a]
  · intro k v hkv
    have hw := hwt _ hkv
    have hmem := lookupD_dictUpdate_mem m c.rag_params.dict k v hkv hnd
    cases v with
    | b bb =>
      have hk : (k == "include_summarization") = true := hw
      have hk' : k = "include_summarization" := eq_of_beq hk
      subst hk'
      rw [hb1] at hmem
      injection hmem with hmem'
      injection hmem' with hmem''
      show some (PVal.b b) = some (PVal.b bb)
      rw [hmem'']
    | i ii =>
      have hk : (k == "top_k" || k == "chunk_size") = true := hw
      have hk2 : k = "top_k" ∨ k = "chunk_size" := by simpa using hk
      rcases hk2 with hk'' | hk''
      · subst hk''
        rw [hi1a] at hmem
        injection hmem with hmem'
        injection hmem' with hmem''
        show some (PVal.i i1) = some (PVal.i ii)
        rw [hmem'']
      · subst hk''
        rw [hi2a] at hmem
        injection hmem with hmem'
        injection hmem' with hmem''
        show some (PVal.i i2) = some (PVal.i ii)
        rw [hmem'']
    | s ss =>
      have hk : (k == "embed_model" || k == "llm") = true := hw
      have hk2 : k = "embed_model" ∨ k = "llm" := by simpa using hk
      rcases hk2 with hk'' | hk''
      · subst hk''
        rw [hs1a] at hmem
        injection hmem with hmem'
        injection hmem' with hmem''
        show some (PVal.s s1) = some (PVal.s ss)
        rw [hmem'']
      · subst hk''
        rw [hs2a] at hmem
        injection hmem with hmem'
        injection hmem' with hmem''
        show some (PVal.s s2) = some (PVal.s ss)
        rw [hmem'']
  · intro k hki
    by_cases e1 : "include_summarization" = k
    · subst e1
      show some (PVal.b b) = some (PVal.b c.rag_params.include_summarization)
      rw [hb2 hki]
    · by_cases e2 : "top_k" = k
      · subst e2
        show some (PVal.i i1) = some (PVal.i c.rag_params.top_k)
        rw [hi1b hki]
      · by_cases e3 : "chunk_size" = k
        · subst e3
          show some (PVal.i i2) = some (PVal.i c.rag_params.chunk_size)
          rw [hi2b hki]
        · by_cases e4 : "embed_model" = k
          · subst e4
            show some (PVal.s s1) = some (PVal.s c.rag_params.embed_model)
            rw [hs1b hki]
          · by_cases e5 : "llm" = k
            · subst e5
              show some (PVal.s s2) = some (PVal.s c.rag_params.llm)
              rw [hs2b hki]
            · simp [get_rag_params, RAGParams.dict, lookupD, e1, e2, e3, e4, e5]

/-- Witness for C4 at the spec's own scenario `set_rag_params(top_k=5)` on
a fresh cache. -/
theorem set_then_get_overrides_exactly_witness :
    (∀ kv ∈ [("top_k", PVal.i 5)], wellTypedEntry kv = true)
  ∧ (([("top_k", PVal.i 5)].map Prod.fst).Nodup)
  ∧ (∃ c', set_rag_params initialCache [("top_k", PVal.i 5)] =
        .ok ("RAG parameters set successfully.", c')
      ∧ (∀ k v, (k, v) ∈ [("top_k", PVal.i 5)] → lookupD (get_rag_params c') k = some v)
      ∧ (∀ k, (∀ v, (k, v) ∉ [("top_k", PVal.i 5)]) →
          lookupD (get_rag_params c') k = lookupD (get_rag_params initialCache) k)) :=
  ⟨by decide, by decide,
   set_then_get_overrides_exactly initialCache [("top_k", PVal.i 5)] (by decide) (by decide)⟩

end AgentUtils
